import Mathlib

/-!
# Verification of the xt_DPORT Xtables target (neonKUBE)

Shallow embedding of the DPORT destination-port-rewriting extension:

* the kernel data path `dport_tg4` / `dport_tg_check`, which exists in two
  copies in the tree:
  - `src/Archive/xt_DPORT/xt_DPORT.c` (writes the port with `htons`), and
  - `src/Tools/neon-cli/Resources/Ubuntu-16.04/source/xt_DPORT/xt_DPORT.c`
    (writes the port with `cpu_to_le16`);
* the user-space iptables extension
  `src/Tools/neon-cli/Resources/Ubuntu-16.04/source/xt_DPORT/libxt_DPORT.c`
  (`dport_tg4_parse`, `dport_tg_check`, `dport_tg4_print`, `dport_tg4_save`).

A packet (`struct sk_buff` data) is modelled as a `List Nat` of bytes.  The
IP header occupies bytes `[0, 20)` (the code uses `sizeof(struct iphdr)`,
i.e. the fixed 20-byte header), with the protocol field at byte offset 9.
`tcp_hdr`/`udp_hdr` point immediately after the IP header, and the
destination-port field `dest` sits at byte offset 2 of both `struct tcphdr`
and `struct udphdr`, hence at absolute offsets 22 and 23.  A stored 16-bit
value is modelled by its two memory bytes: `htons p` lays out `p`
big-endian (network order) and `cpu_to_le16 p` lays out `p` little-endian,
independent of the host.  `skb_make_writable` depends on buffer ownership
state outside the model, so it is passed in as an oracle
`skb_make_writable : Nat → Bool` mapping the requested length to success.
-/

/-- IP protocol number for TCP (`IPPROTO_TCP`). -/
def IPPROTO_TCP : Nat := 6

/-- IP protocol number for UDP (`IPPROTO_UDP`). -/
def IPPROTO_UDP : Nat := 17

/-- IP protocol number for UDP-Lite (`IPPROTO_UDPLITE`). -/
def IPPROTO_UDPLITE : Nat := 136

/-- `sizeof(struct iphdr)`: the fixed 20-byte IPv4 header. -/
def sizeof_iphdr : Nat := 20

/-- `sizeof(struct tcphdr)`: the fixed 20-byte TCP header. -/
def sizeof_tcphdr : Nat := 20

/-- `sizeof(struct udphdr)`: the fixed 8-byte UDP / UDP-Lite header. -/
def sizeof_udphdr : Nat := 8

/-- Byte offset of `iphdr.protocol` within the packet. -/
def protocol_offset : Nat := 9

/-- `tcp_hdr(skb)` / `udp_hdr(skb)`: the transport header starts
immediately after the IP header. -/
def transport_offset : Nat := sizeof_iphdr

/-- `struct xt_dport_tginfo` (xt_DPORT.h): the binary rule configuration
shared by the user-space compiler and the kernel module.  Its single field
`dport` is a `__u16`; the embedding carries it as a `Nat` (values produced
by the parser are `< 65536`). -/
structure xt_dport_tginfo where
  dport : Nat
deriving DecidableEq, Repr

/-- The verdict a target returns to the Xtables framework. -/
inductive Verdict where
  /-- `XT_CONTINUE`: pass the packet through to the rest of the pipeline. -/
  | XT_CONTINUE
  /-- `NF_DROP`: discard the packet. -/
  | NF_DROP
deriving DecidableEq, Repr

/-- `htons p`: memory bytes of a `__be16` holding port `p` — big-endian
(network) order: high byte first. -/
def htons (p : Nat) : Nat × Nat := (p / 256 % 256, p % 256)

/-- `cpu_to_le16 p`: memory bytes of a 16-bit little-endian value holding
`p`: low byte first. -/
def cpu_to_le16 (p : Nat) : Nat × Nat := (p % 256, p / 256 % 256)

/-- `tcph->dest = x` / `udph->dest = x`: store the two bytes `b` at byte
offset 2 of the transport header (absolute offsets 22 and 23). -/
def write_dest (skb : List Nat) (b : Nat × Nat) : List Nat :=
  (skb.set (transport_offset + 2) b.1).set (transport_offset + 3) b.2

/-- `iph->protocol`: read the protocol byte of the (re-fetched) IP header. -/
def ip_protocol (skb : List Nat) : Nat :=
  skb.getD protocol_offset 0

/-- `struct xt_tgchk_param`: the rule-installation check parameter handed to
`checkentry`.  Only the target info is relevant to this extension. -/
structure xt_tgchk_param where
  targinfo : xt_dport_tginfo

namespace Ubuntu

/-- `dport_tg_check` of
`src/Tools/neon-cli/Resources/Ubuntu-16.04/source/xt_DPORT/xt_DPORT.c`
(lines 21-24): unconditionally returns 0 — "DPORT target can be referenced
from any table". -/
def dport_tg_check (par : xt_tgchk_param) : Int := 0

/-- `dport_tg4` of
`src/Tools/neon-cli/Resources/Ubuntu-16.04/source/xt_DPORT/xt_DPORT.c`
(lines 26-98).  First switch: acquire writable access over IP header plus
the protocol's transport header, dropping the packet on failure and passing
non-TCP/UDP/UDP-Lite packets through.  Second switch (after re-fetching
`ip_hdr`, since `skb_make_writable` may relocate the buffer): write the new
destination port.  This copy encodes the port with `cpu_to_le16`. -/
def dport_tg4 (skb_make_writable : Nat → Bool) (info : xt_dport_tginfo)
    (skb : List Nat) : Verdict × List Nat :=
  -- Ignore rules that didn't set [--to-port].
  if info.dport = 0 then (Verdict.XT_CONTINUE, skb)
  else
    -- the code after the first switch: re-fetch ip_hdr and write the port
    let second_switch : List Nat → Verdict × List Nat := fun s =>
      if ip_protocol s = IPPROTO_TCP then
        (Verdict.XT_CONTINUE, write_dest s (cpu_to_le16 info.dport))
      else if ip_protocol s = IPPROTO_UDP ∨ ip_protocol s = IPPROTO_UDPLITE then
        (Verdict.XT_CONTINUE, write_dest s (cpu_to_le16 info.dport))
      else
        (Verdict.XT_CONTINUE, s)
    if ip_protocol skb = IPPROTO_TCP then
      if skb_make_writable (sizeof_iphdr + sizeof_tcphdr) = false then
        (Verdict.NF_DROP, skb)
      else second_switch skb
    else if ip_protocol skb = IPPROTO_UDP ∨ ip_protocol skb = IPPROTO_UDPLITE then
      if skb_make_writable (sizeof_iphdr + sizeof_udphdr) = false then
        (Verdict.NF_DROP, skb)
      else second_switch skb
    else
      -- Ignore non-TCP/UDP packets.
      (Verdict.XT_CONTINUE, skb)

end Ubuntu

namespace Archive

/-- `dport_tg_check` of `src/Archive/xt_DPORT/xt_DPORT.c` (lines 34-37):
unconditionally returns 0. -/
def dport_tg_check (par : xt_tgchk_param) : Int := 0

/-- `dport_tg4` of `src/Archive/xt_DPORT/xt_DPORT.c` (lines 39-127).
Identical control flow to the Ubuntu-16.04 copy (the `printk` debug traces
do not affect the packet or the verdict) except that this copy encodes the
new destination port with `htons`. -/
def dport_tg4 (skb_make_writable : Nat → Bool) (info : xt_dport_tginfo)
    (skb : List Nat) : Verdict × List Nat :=
  if info.dport = 0 then (Verdict.XT_CONTINUE, skb)
  else
    let second_switch : List Nat → Verdict × List Nat := fun s =>
      if ip_protocol s = IPPROTO_TCP then
        (Verdict.XT_CONTINUE, write_dest s (htons info.dport))
      else if ip_protocol s = IPPROTO_UDP ∨ ip_protocol s = IPPROTO_UDPLITE then
        (Verdict.XT_CONTINUE, write_dest s (htons info.dport))
      else
        (Verdict.XT_CONTINUE, s)
    if ip_protocol skb = IPPROTO_TCP then
      if skb_make_writable (sizeof_iphdr + sizeof_tcphdr) = false then
        (Verdict.NF_DROP, skb)
      else second_switch skb
    else if ip_protocol skb = IPPROTO_UDP ∨ ip_protocol skb = IPPROTO_UDPLITE then
      if skb_make_writable (sizeof_iphdr + sizeof_udphdr) = false then
        (Verdict.NF_DROP, skb)
      else second_switch skb
    else
      (Verdict.XT_CONTINUE, skb)

end Archive

/-- A concrete 42-byte TCP/IPv4 packet used by witnesses and
counterexamples: 20-byte IP header with protocol 6 (TCP) at offset 9,
20-byte TCP header with source port 49153 and destination port 80, and a
2-byte payload. -/
def tcpPacket : List Nat :=
  [0x45, 0x00, 0x00, 0x2A, 0x00, 0x00, 0x00, 0x00, 0x40, 0x06,
   0x00, 0x00, 0x0A, 0x00, 0x00, 0x01, 0x0A, 0x00, 0x00, 0x02,
   0xC0, 0x01, 0x00, 0x50, 0x00, 0x00, 0x00, 0x01, 0x00, 0x00,
   0x00, 0x02, 0x50, 0x10, 0x20, 0x00, 0x00, 0x00, 0x00, 0x00,
   0xAA, 0xBB]

/-- A concrete 30-byte ICMP/IPv4 packet (protocol 1): not TCP, UDP or
UDP-Lite. -/
def icmpPacket : List Nat :=
  [0x45, 0x00, 0x00, 0x1E, 0x00, 0x00, 0x00, 0x00, 0x40, 0x01,
   0x00, 0x00, 0x0A, 0x00, 0x00, 0x01, 0x0A, 0x00, 0x00, 0x02,
   0x08, 0x00, 0x00, 0x00, 0x00, 0x01, 0x00, 0x01, 0xCC, 0xDD]

/-- `List.getD` at an index other than the one just written is unchanged. -/
theorem getD_set_ne (l : List Nat) (i j v d : Nat) (h : i ≠ j) :
    (l.set i v).getD j d = l.getD j d := by
  simp [List.getD, List.getElem?_set_ne h]

/-- Writing the destination-port bytes does not change the protocol byte. -/
theorem ip_protocol_write_dest (s : List Nat) (b : Nat × Nat) :
    ip_protocol (write_dest s b) = ip_protocol s := by
  show ((s.set 22 b.1).set 23 b.2).getD 9 0 = s.getD 9 0
  rw [getD_set_ne _ _ _ _ _ (by decide), getD_set_ne _ _ _ _ _ (by decide)]

/-- Writing the same destination-port bytes twice is the same as once. -/
theorem write_dest_write_dest (s : List Nat) (b : Nat × Nat) :
    write_dest (write_dest s b) b = write_dest s b := by
  show (((s.set 22 b.1).set 23 b.2).set 22 b.1).set 23 b.2 =
    (s.set 22 b.1).set 23 b.2
  rw [List.set_comm _ _ _ (by decide : (23 : Nat) ≠ 22), List.set_set,
    List.set_set]

example : Ubuntu.dport_tg4 (fun _ => true) ⟨8080⟩ tcpPacket =
    (Verdict.XT_CONTINUE, write_dest tcpPacket (0x90, 0x1F)) := by decide

example : Archive.dport_tg4 (fun _ => true) ⟨8080⟩ tcpPacket =
    (Verdict.XT_CONTINUE, write_dest tcpPacket (0x1F, 0x90)) := by decide

example : Ubuntu.dport_tg4 (fun _ => false) ⟨8080⟩ tcpPacket =
    (Verdict.NF_DROP, tcpPacket) := by decide

example : Ubuntu.dport_tg4 (fun _ => true) ⟨8080⟩ icmpPacket =
    (Verdict.XT_CONTINUE, icmpPacket) := by decide

/-- C10: the kernel-side rule-installation check `dport_tg_check` returns
success (0) for every rule configuration unconditionally, in both copies:
the data plane performs no validation of `dport` at install time. -/
theorem C10_dport_tg_check_unconditional (par : xt_tgchk_param) :
    Ubuntu.dport_tg_check par = 0 ∧ Archive.dport_tg_check par = 0 :=
  ⟨rfl, rfl⟩

/-- C10 witness: the check succeeds on a concrete configuration. -/
theorem C10_witness :
    Ubuntu.dport_tg_check ⟨⟨8080⟩⟩ = 0 ∧ Archive.dport_tg_check ⟨⟨8080⟩⟩ = 0 :=
  C10_dport_tg_check_unconditional ⟨⟨8080⟩⟩

/-- C3: when `dport = 0` the rule is inert — both copies of `dport_tg4`
return `XT_CONTINUE` with the packet buffer bit-identical to the input,
for any protocol and any outcome of the writable-access oracle. -/
theorem C3_dport_zero_noop (w : Nat → Bool) (info : xt_dport_tginfo)
    (skb : List Nat) (h : info.dport = 0) :
    Ubuntu.dport_tg4 w info skb = (Verdict.XT_CONTINUE, skb) ∧
    Archive.dport_tg4 w info skb = (Verdict.XT_CONTINUE, skb) := by
  constructor
  · simp [Ubuntu.dport_tg4, h]
  · simp [Archive.dport_tg4, h]

/-- C3 witness: a concrete TCP packet with an unset (`0`) target port is
passed through untouched. -/
theorem C3_witness :
    Ubuntu.dport_tg4 (fun _ => true) ⟨0⟩ tcpPacket =
      (Verdict.XT_CONTINUE, tcpPacket) ∧
    Archive.dport_tg4 (fun _ => true) ⟨0⟩ tcpPacket =
      (Verdict.XT_CONTINUE, tcpPacket) :=
  C3_dport_zero_noop (fun _ => true) ⟨0⟩ tcpPacket rfl

/-- C5: packets whose protocol is not TCP, UDP or UDP-Lite are passed
through unmodified by both copies of `dport_tg4`, regardless of the
configured target port. -/
theorem C5_other_protocols_pass_through (w : Nat → Bool)
    (info : xt_dport_tginfo) (skb : List Nat)
    (h1 : ip_protocol skb ≠ IPPROTO_TCP)
    (h2 : ip_protocol skb ≠ IPPROTO_UDP)
    (h3 : ip_protocol skb ≠ IPPROTO_UDPLITE) :
    Ubuntu.dport_tg4 w info skb = (Verdict.XT_CONTINUE, skb) ∧
    Archive.dport_tg4 w info skb = (Verdict.XT_CONTINUE, skb) := by
  constructor
  · simp [Ubuntu.dport_tg4, h1, h2, h3]
  · simp [Archive.dport_tg4, h1, h2, h3]

/-- C5 witness: a concrete ICMP packet (protocol 1) is passed through
unmodified even with a nonzero target port. -/
theorem C5_witness :
    Ubuntu.dport_tg4 (fun _ => true) ⟨8080⟩ icmpPacket =
      (Verdict.XT_CONTINUE, icmpPacket) ∧
    Archive.dport_tg4 (fun _ => true) ⟨8080⟩ icmpPacket =
      (Verdict.XT_CONTINUE, icmpPacket) :=
  C5_other_protocols_pass_through (fun _ => true) ⟨8080⟩ icmpPacket
    (by decide) (by decide) (by decide)

/-- C1 (code-bug evidence): on a concrete TCP packet with target port 8080
and a succeeding writable request, the Ubuntu-16.04 copy of `dport_tg4`
stores the low byte of the port first (little-endian, `cpu_to_le16`), while
the Archive copy stores the high byte first (wire / network byte order,
`htons`); the two byte orders differ for 8080.  The claim requires the wire
(network) encoding, which the Ubuntu-16.04 copy — whose own comment says
the port must be written in network byte order — does not produce. -/
theorem C1_ubuntu_writes_little_endian :
    (Ubuntu.dport_tg4 (fun _ => true) ⟨8080⟩ tcpPacket).2.getD 22 0 =
      8080 % 256 ∧
    (Ubuntu.dport_tg4 (fun _ => true) ⟨8080⟩ tcpPacket).2.getD 23 0 =
      8080 / 256 ∧
    (Archive.dport_tg4 (fun _ => true) ⟨8080⟩ tcpPacket).2.getD 22 0 =
      8080 / 256 ∧
    (Archive.dport_tg4 (fun _ => true) ⟨8080⟩ tcpPacket).2.getD 23 0 =
      8080 % 256 ∧
    8080 / 256 ≠ 8080 % 256 := by decide

/-- C9 counterexample: the two copies of `dport_tg4` do not produce
byte-identical outputs — on a TCP packet with target port 8080 and a
succeeding writable request they write the two destination-port bytes in
opposite orders. -/
theorem C9_counterexample :
    Archive.dport_tg4 (fun _ => true) ⟨8080⟩ tcpPacket ≠
      Ubuntu.dport_tg4 (fun _ => true) ⟨8080⟩ tcpPacket := by decide

/-- `sizeof(struct iphdr)` plus the transport-header size the code requests
from `skb_make_writable` for the given protocol. -/
def writable_len (proto : Nat) : Nat :=
  sizeof_iphdr + (if proto = IPPROTO_TCP then sizeof_tcphdr else sizeof_udphdr)

/-- C4: for a TCP/UDP/UDP-Lite packet and a nonzero target port, a failing
`skb_make_writable` request makes the Ubuntu-16.04 `dport_tg4` return
`NF_DROP` with the buffer untouched; and (converse) `NF_DROP` is returned
only under exactly those conditions, always with an untouched buffer. -/
theorem C4_drop_exactly_on_writable_failure (w : Nat → Bool)
    (info : xt_dport_tginfo) (skb : List Nat)
    (h0 : info.dport ≠ 0)
    (hp : ip_protocol skb = IPPROTO_TCP ∨ ip_protocol skb = IPPROTO_UDP ∨
      ip_protocol skb = IPPROTO_UDPLITE)
    (hw : w (writable_len (ip_protocol skb)) = false) :
    Ubuntu.dport_tg4 w info skb = (Verdict.NF_DROP, skb) ∧
    ∀ w2 info2 skb2,
      (Ubuntu.dport_tg4 w2 info2 skb2).1 = Verdict.NF_DROP →
      (Ubuntu.dport_tg4 w2 info2 skb2).2 = skb2 ∧ info2.dport ≠ 0 ∧
      (ip_protocol skb2 = IPPROTO_TCP ∨ ip_protocol skb2 = IPPROTO_UDP ∨
        ip_protocol skb2 = IPPROTO_UDPLITE) ∧
      w2 (writable_len (ip_protocol skb2)) = false := by
  constructor
  · rcases hp with ht | hu
    · simp only [writable_len, ht, if_pos] at hw
      simp [Ubuntu.dport_tg4, h0, ht, hw]
    · have ht : ip_protocol skb ≠ IPPROTO_TCP := by
        rcases hu with hu | hu <;> rw [hu] <;> decide
      simp only [writable_len, ht, if_neg, ite_false] at hw
      simp [Ubuntu.dport_tg4, h0, ht, hu, hw]
  · intro w2 info2 skb2 hdrop
    by_cases h0' : info2.dport = 0
    · simp [Ubuntu.dport_tg4, h0'] at hdrop
    by_cases ht : ip_protocol skb2 = IPPROTO_TCP
    · by_cases hw2 : w2 (sizeof_iphdr + sizeof_tcphdr) = false
      · refine ⟨?_, h0', Or.inl ht, ?_⟩
        · simp [Ubuntu.dport_tg4, h0', ht, hw2]
        · simpa [writable_len, ht] using hw2
      · exfalso
        simp [Ubuntu.dport_tg4, h0', ht, hw2] at hdrop
    by_cases hu : ip_protocol skb2 = IPPROTO_UDP ∨ ip_protocol skb2 = IPPROTO_UDPLITE
    · by_cases hw2 : w2 (sizeof_iphdr + sizeof_udphdr) = false
      · refine ⟨?_, h0', Or.inr hu, ?_⟩
        · simp [Ubuntu.dport_tg4, h0', ht, hu, hw2]
        · simpa [writable_len, ht] using hw2
      · exfalso
        simp [Ubuntu.dport_tg4, h0', ht, hu, hw2] at hdrop
    · exfalso
      simp [Ubuntu.dport_tg4, h0', ht, hu] at hdrop

/-- C4 witness: with an always-failing writable oracle, a concrete TCP
packet with target port 8080 is dropped with its buffer untouched. -/
theorem C4_witness :
    Ubuntu.dport_tg4 (fun _ => false) ⟨8080⟩ tcpPacket =
      (Verdict.NF_DROP, tcpPacket) :=
  (C4_drop_exactly_on_writable_failure (fun _ => false) ⟨8080⟩ tcpPacket
    (by decide) (by decide) (by decide)).1

/-- C8: applying `dport_tg4` twice with the same configuration and the same
writable-access oracle yields the same resulting packet as applying it
once, for both copies. -/
theorem C8_rewrite_idempotent (w : Nat → Bool) (info : xt_dport_tginfo)
    (skb : List Nat) :
    (Ubuntu.dport_tg4 w info (Ubuntu.dport_tg4 w info skb).2).2 =
      (Ubuntu.dport_tg4 w info skb).2 ∧
    (Archive.dport_tg4 w info (Archive.dport_tg4 w info skb).2).2 =
      (Archive.dport_tg4 w info skb).2 := by
  constructor
  · by_cases h0 : info.dport = 0
    · simp [Ubuntu.dport_tg4, h0]
    by_cases ht : ip_protocol skb = IPPROTO_TCP
    · by_cases hw : w (sizeof_iphdr + sizeof_tcphdr) = false
      · simp [Ubuntu.dport_tg4, h0, ht, hw]
      · simp [Ubuntu.dport_tg4, h0, ht, hw, ip_protocol_write_dest,
          write_dest_write_dest]
    by_cases hu : ip_protocol skb = IPPROTO_UDP ∨ ip_protocol skb = IPPROTO_UDPLITE
    · by_cases hw : w (sizeof_iphdr + sizeof_udphdr) = false
      · simp [Ubuntu.dport_tg4, h0, ht, hu, hw]
      · simp [Ubuntu.dport_tg4, h0, ht, hu, hw, ip_protocol_write_dest,
          write_dest_write_dest]
    · simp [Ubuntu.dport_tg4, h0, ht, hu]
  · by_cases h0 : info.dport = 0
    · simp [Archive.dport_tg4, h0]
    by_cases ht : ip_protocol skb = IPPROTO_TCP
    · by_cases hw : w (sizeof_iphdr + sizeof_tcphdr) = false
      · simp [Archive.dport_tg4, h0, ht, hw]
      · simp [Archive.dport_tg4, h0, ht, hw, ip_protocol_write_dest,
          write_dest_write_dest]
    by_cases hu : ip_protocol skb = IPPROTO_UDP ∨ ip_protocol skb = IPPROTO_UDPLITE
    · by_cases hw : w (sizeof_iphdr + sizeof_udphdr) = false
      · simp [Archive.dport_tg4, h0, ht, hu, hw]
      · simp [Archive.dport_tg4, h0, ht, hu, hw, ip_protocol_write_dest,
          write_dest_write_dest]
    · simp [Archive.dport_tg4, h0, ht, hu]

/-- C9 (amended): the two copies of `dport_tg4` always return the same
verdict, and their output packets are byte-identical except in the rewrite
case, where the Archive copy writes the destination-port bytes as
`htons info.dport` (network order) and the Ubuntu-16.04 copy as
`cpu_to_le16 info.dport` (the byte-swapped, little-endian order). -/
theorem C9_amended_same_verdict_swapped_port_bytes (w : Nat → Bool)
    (info : xt_dport_tginfo) (skb : List Nat) :
    (Archive.dport_tg4 w info skb).1 = (Ubuntu.dport_tg4 w info skb).1 ∧
    ((Archive.dport_tg4 w info skb).2 = (Ubuntu.dport_tg4 w info skb).2 ∨
      ((Archive.dport_tg4 w info skb).2 = write_dest skb (htons info.dport) ∧
       (Ubuntu.dport_tg4 w info skb).2 =
         write_dest skb (cpu_to_le16 info.dport))) := by
  by_cases h0 : info.dport = 0
  · simp [Archive.dport_tg4, Ubuntu.dport_tg4, h0]
  by_cases ht : ip_protocol skb = IPPROTO_TCP
  · by_cases hw : w (sizeof_iphdr + sizeof_tcphdr) = false
    · simp [Archive.dport_tg4, Ubuntu.dport_tg4, h0, ht, hw]
    · refine ⟨?_, Or.inr ⟨?_, ?_⟩⟩ <;>
        simp [Archive.dport_tg4, Ubuntu.dport_tg4, h0, ht, hw]
  by_cases hu : ip_protocol skb = IPPROTO_UDP ∨ ip_protocol skb = IPPROTO_UDPLITE
  · by_cases hw : w (sizeof_iphdr + sizeof_udphdr) = false
    · simp [Archive.dport_tg4, Ubuntu.dport_tg4, h0, ht, hu, hw]
    · refine ⟨?_, Or.inr ⟨?_, ?_⟩⟩ <;>
        simp [Archive.dport_tg4, Ubuntu.dport_tg4, h0, ht, hu, hw]
  · simp [Archive.dport_tg4, Ubuntu.dport_tg4, h0, ht, hu]

/-! ## User-space extension: libxt_DPORT.c

`dport_tg4_parse` validates the `--to-port` option value with the external
xtables library routine `xtables_strtoui` (not part of this repository) and
`dport_tg4_print` / `dport_tg4_save` render the port with `printf("%u")`
(C library).  Those two external routines are modelled from the spec. -/

/-- A decimal digit character, as validated by the C library: code point in
`[48, 57]` (`[0-9]`). -/
def isDecDigit (c : Char) : Bool :=
  decide (48 ≤ c.toNat) && decide (c.toNat ≤ 57)

/-- Value of a decimal digit string, most significant digit first. -/
def digitsVal (l : List Char) : Nat :=
  l.foldl (fun a c => a * 10 + (c.toNat - 48)) 0

/-- Decimal digits of `n` (most significant first, empty for 0), computed
with explicit fuel so that the kernel can evaluate it. -/
def toDigitsAux : Nat → Nat → List Char
  | 0, _ => []
  | _ + 1, 0 => []
  | fuel + 1, n + 1 =>
    toDigitsAux fuel ((n + 1) / 10) ++ [Char.ofNat (48 + (n + 1) % 10)]

/-- Decimal digits of `n`, most significant first; empty for 0. -/
def decimalDigits (n : Nat) : List Char := toDigitsAux n n

/-- Modelled from the spec: `printf("%u", n)` (C library, not part of this
repository) renders `n` as its decimal representation. -/
def decimalRepr (n : Nat) : String :=
  if n = 0 then "0" else String.mk (decimalDigits n)

/-- Modelled from the spec: the external xtables library routine
`xtables_strtoui(text, NULL, &value, mn, mx)` (not part of this
repository's sources).  Per the spec, `parseOption` "accepts exactly the
decimal representation of an integer in `[1, 65535]`"; accordingly this
model accepts exactly the decimal representations of the integers in
`[mn, mx]` (digits only, no leading zero except for `"0"` itself) and
returns the parsed value. -/
def strtoui_digits (l : List Char) (mn mx : Nat) : Option Nat :=
  match l with
  | [] => none
  | c :: cs =>
    if (c :: cs).all isDecDigit = true ∧ (c.toNat ≠ 48 ∨ cs = []) then
      if mn ≤ digitsVal (c :: cs) ∧ digitsVal (c :: cs) ≤ mx then
        some (digitsVal (c :: cs))
      else none
    else none

/-- `xtables_strtoui` applied to the characters of the option text; see
`strtoui_digits` for the doc comment. -/
def xtables_strtoui (s : String) (mn mx : Nat) : Option Nat :=
  strtoui_digits s.data mn mx

/-- The error exits of the xtables helpers used by libxt_DPORT.c:
`xtables_param_act(XTF_BAD_VALUE, ext, opt, val)` (the spec's
`InvalidValue`) and `xtables_error(PARAMETER_PROBLEM, msg)` (the spec's
`MissingRequiredParameter`). -/
inductive XtError where
  | XTF_BAD_VALUE (ext opt val : String)
  | PARAMETER_PROBLEM (msg : String)
deriving DecidableEq, Repr

deriving instance DecidableEq for Except

namespace Libxt

/-- `FLAGS_DPORT` (libxt_DPORT.c line 30): the flag bit recording that
`--to-port` was seen. -/
def FLAGS_DPORT : Nat := 1

/-- `dport_tg4_parse` (libxt_DPORT.c lines 46-64), case `'t'`
(`--to-port`): validate `optarg` with `xtables_strtoui(optarg, NULL, &port,
1, 65535)`; on failure raise `XTF_BAD_VALUE`, otherwise store
`(__u16)port` into the configuration and set `FLAGS_DPORT`. -/
def dport_tg4_parse (optarg : String) (flags : Nat) :
    Except XtError (xt_dport_tginfo × Nat) :=
  match xtables_strtoui optarg 1 65535 with
  | some port => Except.ok (⟨port % 65536⟩, flags ||| FLAGS_DPORT)
  | none => Except.error (XtError.XTF_BAD_VALUE "DPORT" "--to-port" optarg)

/-- `dport_tg_check` (libxt_DPORT.c lines 66-71): rule finalization fails
with `PARAMETER_PROBLEM` unless `FLAGS_DPORT` is set. -/
def dport_tg_check (flags : Nat) : Except XtError Unit :=
  if flags &&& FLAGS_DPORT = 0 then
    Except.error
      (XtError.PARAMETER_PROBLEM "DPORT: \"--to-port\" is required.")
  else
    Except.ok ()

/-- `dport_tg4_print` (libxt_DPORT.c lines 73-79): interactive display,
`printf(" to-port %u ", info->dport)`. -/
def dport_tg4_print (info : xt_dport_tginfo) : String :=
  " to-port " ++ decimalRepr info.dport ++ " "

/-- `dport_tg4_save` (libxt_DPORT.c lines 81-86): persistence/reload
rendering, `printf(" --to-port %u ", info->dport)`. -/
def dport_tg4_save (info : xt_dport_tginfo) : String :=
  " --to-port " ++ decimalRepr info.dport ++ " "

end Libxt

example : Libxt.dport_tg4_parse "8080" 0 = Except.ok (⟨8080⟩, 1) := by decide
example : Libxt.dport_tg4_parse "0" 0 =
    Except.error (XtError.XTF_BAD_VALUE "DPORT" "--to-port" "0") := by decide
example : Libxt.dport_tg4_print ⟨8080⟩ = " to-port 8080 " := by decide
example : Libxt.dport_tg4_save ⟨8080⟩ = " --to-port 8080 " := by decide

/-- `toDigitsAux` does not depend on the fuel once the fuel is at least the
number. -/
theorem toDigitsAux_fuel (f1 : Nat) : ∀ f2 n : Nat, n ≤ f1 → n ≤ f2 →
    toDigitsAux f1 n = toDigitsAux f2 n := by
  induction f1 with
  | zero =>
    intro f2 n h1 _
    interval_cases n
    cases f2 <;> rfl
  | succ f ih =>
    intro f2 n h1 h2
    match n, f2 with
    | 0, 0 => rfl
    | 0, _ + 1 => rfl
    | m + 1, f2 + 1 =>
      show toDigitsAux f ((m + 1) / 10) ++ _ =
        toDigitsAux f2 ((m + 1) / 10) ++ _
      rw [ih f2 ((m + 1) / 10) (by omega) (by omega)]

/-- Unfolding equation for `decimalDigits` at a nonzero argument. -/
theorem decimalDigits_succ (n : Nat) (h : n ≠ 0) :
    decimalDigits n = decimalDigits (n / 10) ++ [Char.ofNat (48 + n % 10)] := by
  obtain ⟨m, rfl⟩ : ∃ m, n = m + 1 := ⟨n - 1, by omega⟩
  show toDigitsAux (m + 1) (m + 1) = toDigitsAux ((m + 1) / 10) ((m + 1) / 10) ++ _
  rw [toDigitsAux_fuel ((m + 1) / 10) m ((m + 1) / 10) (le_refl _) (by omega)]
  rfl

/-- The code points produced for single digits. -/
theorem char_ofNat_digit : ∀ k : Nat, k < 10 →
    (Char.ofNat (48 + k)).toNat = 48 + k ∧
    isDecDigit (Char.ofNat (48 + k)) = true ∧
    (k ≠ 0 → (Char.ofNat (48 + k)).toNat ≠ 48) := by decide

/-- Appending one digit multiplies the value by ten and adds the digit. -/
theorem digitsVal_append (l : List Char) (c : Char) :
    digitsVal (l ++ [c]) = digitsVal l * 10 + (c.toNat - 48) := by
  simp [digitsVal, List.foldl_append]

/-- `digitsVal` recovers the number from its decimal digits. -/
theorem digitsVal_decimalDigits (n : Nat) :
    digitsVal (decimalDigits n) = n := by
  induction n using Nat.strong_induction_on with
  | _ n ih =>
    rcases Nat.eq_zero_or_pos n with h | h
    · subst h; rfl
    · rw [decimalDigits_succ n (by omega), digitsVal_append,
        ih (n / 10) (by omega), (char_ofNat_digit (n % 10) (by omega)).1]
      omega

/-- All characters of `decimalDigits n` are decimal digits. -/
theorem decimalDigits_all (n : Nat) :
    (decimalDigits n).all isDecDigit = true := by
  induction n using Nat.strong_induction_on with
  | _ n ih =>
    rcases Nat.eq_zero_or_pos n with h | h
    · subst h; rfl
    · rw [decimalDigits_succ n (by omega)]
      simp only [List.all_append, List.all_cons, List.all_nil, Bool.and_true,
        Bool.and_eq_true]
      exact ⟨ih (n / 10) (by omega), (char_ofNat_digit (n % 10) (by omega)).2.1⟩

/-- For `n ≥ 1`, `decimalDigits n` is nonempty and its leading digit is not
`'0'` (code point 48). -/
theorem decimalDigits_head (n : Nat) (h : n ≠ 0) :
    ∃ c cs, decimalDigits n = c :: cs ∧ c.toNat ≠ 48 := by
  induction n using Nat.strong_induction_on with
  | _ n ih =>
    rw [decimalDigits_succ n h]
    rcases Nat.eq_zero_or_pos (n / 10) with hq | hq
    · refine ⟨Char.ofNat (48 + n % 10), [], ?_, ?_⟩
      · rw [hq]; rfl
      · have hn10 : n < 10 := by omega
        have : n % 10 ≠ 0 := by omega
        exact (char_ofNat_digit (n % 10) (by omega)).2.2 this
    · obtain ⟨c, cs, heq, hc⟩ := ih (n / 10) (by omega) (by omega)
      exact ⟨c, cs ++ [Char.ofNat (48 + n % 10)], by rw [heq]; rfl, hc⟩

/-- The digit-string fold never decreases below its accumulator. -/
theorem digitsVal_foldl_le (l : List Char) : ∀ a : Nat,
    a ≤ l.foldl (fun a c => a * 10 + (c.toNat - 48)) a := by
  induction l with
  | nil => intro a; exact le_refl a
  | cons c cs ih =>
    intro a
    calc a ≤ a * 10 + (c.toNat - 48) := by omega
    _ ≤ _ := ih _

/-- A digit string with a nonzero leading digit has a positive value. -/
theorem digitsVal_pos (c : Char) (l : List Char) (h : c.toNat ≠ 48)
    (hd : isDecDigit c = true) : 1 ≤ digitsVal (c :: l) := by
  have h48 : 48 ≤ c.toNat ∧ c.toNat ≤ 57 := by
    simpa [isDecDigit] using hd
  have : 1 ≤ c.toNat - 48 := by omega
  calc 1 ≤ c.toNat - 48 := this
  _ ≤ _ := by
    have := digitsVal_foldl_le l (c.toNat - 48)
    simpa [digitsVal] using this

/-- `String.mk` of a string's characters gives back the string. -/
theorem string_mk_data (s : String) : String.mk s.data = s := by
  obtain ⟨l⟩ := s
  rfl

/-- Completeness of `decimalDigits`: a nonempty digit string without a
leading zero and with positive value is exactly the decimal-digit string of
its value. -/
theorem decimalDigits_digitsVal (l : List Char) :
    l.all isDecDigit = true → 1 ≤ digitsVal l →
    (∀ c cs, l = c :: cs → c.toNat ≠ 48 ∨ cs = []) →
    decimalDigits (digitsVal l) = l := by
  induction l using List.reverseRecOn with
  | nil =>
    intro _ hpos _
    simp [digitsVal] at hpos
  | append_singleton init c ih =>
    intro hall hpos hlead
    have hsplit : init.all isDecDigit = true ∧ isDecDigit c = true := by
      simpa [List.all_append, Bool.and_eq_true] using hall
    have hcb : 48 ≤ c.toNat ∧ c.toNat ≤ 57 := by
      simpa [isDecDigit] using hsplit.2
    rw [digitsVal_append] at hpos ⊢
    rw [decimalDigits_succ _ (by omega)]
    have hv10 : (digitsVal init * 10 + (c.toNat - 48)) % 10 = c.toNat - 48 := by
      omega
    have hvdiv : (digitsVal init * 10 + (c.toNat - 48)) / 10 = digitsVal init := by
      omega
    have hchar : Char.ofNat (48 + (digitsVal init * 10 + (c.toNat - 48)) % 10) = c := by
      rw [hv10, show 48 + (c.toNat - 48) = c.toNat by omega, Char.ofNat_toNat]
    rw [hchar, hvdiv]
    congr 1
    rcases hinit : init with _ | ⟨c0, rest⟩
    · rfl
    · subst hinit
      have hc0 : c0.toNat ≠ 48 := by
        rcases hlead c0 (rest ++ [c]) rfl with h48 | habs
        · exact h48
        · exact absurd habs (by simp)
      have hc0d : isDecDigit c0 = true := by
        have := hsplit.1
        simp only [List.all_cons, Bool.and_eq_true] at this
        exact this.1
      exact ih hsplit.1 (digitsVal_pos c0 rest hc0 hc0d)
        (fun c' cs' heq => by
          injection heq with h1 h2
          subst h1
          exact Or.inl hc0)

/-- The spec-modelled `xtables_strtoui` accepts the decimal representation
of any integer in range and returns that integer. -/
theorem xtables_strtoui_decimalRepr (n : Nat) (h1 : 1 ≤ n) (h2 : n ≤ 65535) :
    xtables_strtoui (decimalRepr n) 1 65535 = some n := by
  obtain ⟨c, cs, heq, hc48⟩ := decimalDigits_head n (by omega)
  have hdata : (decimalRepr n).data = c :: cs := by
    unfold decimalRepr
    rw [if_neg (by omega : ¬ n = 0)]
    exact heq
  unfold xtables_strtoui
  rw [hdata]
  have hall : (c :: cs).all isDecDigit = true := by
    rw [← heq]; exact decimalDigits_all n
  have hval : digitsVal (c :: cs) = n := by
    rw [← heq]; exact digitsVal_decimalDigits n
  simp only [strtoui_digits]
  rw [if_pos ⟨hall, Or.inl hc48⟩, hval, if_pos ⟨h1, h2⟩]

/-- Soundness of the spec-modelled `xtables_strtoui` on the character
level: a successful parse implies the input was the no-leading-zero digit
string of an in-range value. -/
theorem strtoui_digits_some (l : List Char) (mn mx n : Nat)
    (h : strtoui_digits l mn mx = some n) :
    l.all isDecDigit = true ∧
    (∀ c cs, l = c :: cs → c.toNat ≠ 48 ∨ cs = []) ∧
    mn ≤ n ∧ n ≤ mx ∧ digitsVal l = n ∧ l ≠ [] := by
  cases l with
  | nil => simp [strtoui_digits] at h
  | cons c cs =>
    simp only [strtoui_digits] at h
    split_ifs at h with hcond hrange
    · injection h with hn
      refine ⟨hcond.1, ?_, ?_, ?_, hn, by simp⟩
      · intro c' cs' heq
        injection heq with e1 e2
        subst e1
        subst e2
        exact hcond.2
      · omega
      · omega

/-- C6: `dport_tg4_parse` rejects `"0"`, `"65536"`, `""` and `"abc"` with
`XTF_BAD_VALUE` naming the option and the offending value, accepts `"1"`
and `"65535"`, and in general succeeds exactly on the decimal
representations of the integers in `[1, 65535]`, storing the parsed value
as the target port and setting `FLAGS_DPORT`. -/
theorem C6_parse_exactly_decimal_in_range :
    (Libxt.dport_tg4_parse "0" 0 =
      Except.error (XtError.XTF_BAD_VALUE "DPORT" "--to-port" "0")) ∧
    (Libxt.dport_tg4_parse "65536" 0 =
      Except.error (XtError.XTF_BAD_VALUE "DPORT" "--to-port" "65536")) ∧
    (Libxt.dport_tg4_parse "" 0 =
      Except.error (XtError.XTF_BAD_VALUE "DPORT" "--to-port" "")) ∧
    (Libxt.dport_tg4_parse "abc" 0 =
      Except.error (XtError.XTF_BAD_VALUE "DPORT" "--to-port" "abc")) ∧
    (Libxt.dport_tg4_parse "1" 0 = Except.ok (⟨1⟩, 1)) ∧
    (Libxt.dport_tg4_parse "65535" 0 = Except.ok (⟨65535⟩, 1)) ∧
    ∀ s flags info flags2,
      Libxt.dport_tg4_parse s flags = Except.ok (info, flags2) ↔
        (1 ≤ info.dport ∧ info.dport ≤ 65535 ∧ s = decimalRepr info.dport ∧
          flags2 = flags ||| Libxt.FLAGS_DPORT) := by
  refine ⟨by decide, by decide, by decide, by decide, by decide, by decide, ?_⟩
  intro s flags info flags2
  constructor
  · intro h
    unfold Libxt.dport_tg4_parse at h
    cases hst : xtables_strtoui s 1 65535 with
    | none =>
      rw [hst] at h
      exact absurd h (by simp)
    | some port =>
      rw [hst] at h
      have hpair : (⟨port % 65536⟩ : xt_dport_tginfo) = info ∧
          flags ||| Libxt.FLAGS_DPORT = flags2 := by
        simpa using h
      obtain ⟨hl, hr, hv, hne⟩ :
          s.data.all isDecDigit = true ∧
          (∀ c cs, s.data = c :: cs → c.toNat ≠ 48 ∨ cs = []) ∧
          (1 ≤ port ∧ port ≤ 65535) ∧ digitsVal s.data = port := by
        have := strtoui_digits_some s.data 1 65535 port hst
        exact ⟨this.1, this.2.1, ⟨this.2.2.1, this.2.2.2.1⟩, this.2.2.2.2.1⟩
      have hmod : port % 65536 = port := Nat.mod_eq_of_lt (by omega)
      have hdport : info.dport = port := by
        rw [← hpair.1, hmod]
      refine ⟨by omega, by omega, ?_, hpair.2.symm⟩
      have hdd : decimalDigits port = s.data := by
        rw [← hne]
        exact decimalDigits_digitsVal s.data hl (by omega) hr
      rw [hdport]
      unfold decimalRepr
      rw [if_neg (by omega : ¬ port = 0), hdd, string_mk_data]
  · rintro ⟨h1, h2, hs, hf⟩
    subst hs
    subst hf
    unfold Libxt.dport_tg4_parse
    unfold xtables_strtoui at *
    rw [show strtoui_digits (decimalRepr info.dport).data 1 65535 = some info.dport
      from xtables_strtoui_decimalRepr info.dport h1 h2]
    simp [Nat.mod_eq_of_lt (show info.dport < 65536 by omega)]

/-- C6 witness: the general characterization applied at the concrete text
`"8080"`. -/
theorem C6_witness : Libxt.dport_tg4_parse "8080" 0 = Except.ok (⟨8080⟩, 1) :=
  ((C6_parse_exactly_decimal_in_range.2.2.2.2.2.2 "8080" 0 ⟨8080⟩ 1).mpr
    (by refine ⟨by decide, by decide, by decide, by decide⟩))

/-- C7: finalizing a rule whose `--to-port` option was never seen (no flag
bit set) fails with `PARAMETER_PROBLEM`; finalizing after the flag was set
succeeds, and in particular every successful option parse leaves a flag
state that finalizes successfully. -/
theorem C7_to_port_required :
    Libxt.dport_tg_check 0 =
      Except.error
        (XtError.PARAMETER_PROBLEM "DPORT: \"--to-port\" is required.") ∧
    (∀ flags, flags &&& Libxt.FLAGS_DPORT ≠ 0 →
      Libxt.dport_tg_check flags = Except.ok ()) ∧
    ∀ optarg flags info flags2,
      Libxt.dport_tg4_parse optarg flags = Except.ok (info, flags2) →
      Libxt.dport_tg_check flags2 = Except.ok () := by
  refine ⟨rfl, ?_, ?_⟩
  · intro flags h
    unfold Libxt.dport_tg_check
    rw [if_neg h]
  · intro optarg flags info flags2 h
    unfold Libxt.dport_tg4_parse at h
    cases hst : xtables_strtoui optarg 1 65535 with
    | none =>
      rw [hst] at h
      exact absurd h (by simp)
    | some port =>
      rw [hst] at h
      have hflags : flags ||| Libxt.FLAGS_DPORT = flags2 := by
        have : (⟨port % 65536⟩ : xt_dport_tginfo) = info ∧
            flags ||| Libxt.FLAGS_DPORT = flags2 := by simpa using h
        exact this.2
      unfold Libxt.dport_tg_check
      rw [if_neg ?_]
      intro habs
      rw [← hflags] at habs
      have := congrArg (fun x => x.testBit 0) habs
      simp [Libxt.FLAGS_DPORT] at this

/-- C7 witness: the theorem applied at flag state 1 and at a concrete
successful parse. -/
theorem C7_witness :
    Libxt.dport_tg_check 0 =
      Except.error
        (XtError.PARAMETER_PROBLEM "DPORT: \"--to-port\" is required.") ∧
    Libxt.dport_tg_check 1 = Except.ok () :=
  ⟨C7_to_port_required.1, C7_to_port_required.2.1 1 (by decide)⟩

/-- C2 counterexample: the interactive-display rendering and the
persistence/reload rendering of the same configuration are not textually
equal — at port 8080 they are `" to-port 8080 "` and `" --to-port 8080 "`. -/
theorem C2_counterexample :
    Libxt.dport_tg4_print ⟨8080⟩ ≠ Libxt.dport_tg4_save ⟨8080⟩ := by decide

/-- C2 (amended): for every valid configuration the two renderings differ
textually (`dport_tg4_save` prefixes the option name with `--`), but both
embed the same decimal port text, and that port text parses back through
`dport_tg4_parse` to a configuration identical to the one rendered. -/
theorem C2_amended_render_roundtrip (info : xt_dport_tginfo)
    (h1 : 1 ≤ info.dport) (h2 : info.dport ≤ 65535) :
    Libxt.dport_tg4_print info ≠ Libxt.dport_tg4_save info ∧
    ∀ flags, Libxt.dport_tg4_parse (decimalRepr info.dport) flags =
      Except.ok (info, flags ||| Libxt.FLAGS_DPORT) := by
  constructor
  · intro habs
    have hlen := congrArg String.length habs
    simp only [Libxt.dport_tg4_print, Libxt.dport_tg4_save,
      String.length_append] at hlen
    have e1 : (" to-port ").length = 9 := rfl
    have e2 : (" --to-port ").length = 11 := rfl
    rw [e1, e2] at hlen
    omega
  · intro flags
    unfold Libxt.dport_tg4_parse
    unfold xtables_strtoui at *
    rw [show strtoui_digits (decimalRepr info.dport).data 1 65535 =
      some info.dport from xtables_strtoui_decimalRepr info.dport h1 h2]
    simp [Nat.mod_eq_of_lt (show info.dport < 65536 by omega)]

/-- C2 witness: the amended statement at port 8080. -/
theorem C2_witness :
    Libxt.dport_tg4_print ⟨8080⟩ ≠ Libxt.dport_tg4_save ⟨8080⟩ ∧
    Libxt.dport_tg4_parse (decimalRepr 8080) 0 = Except.ok (⟨8080⟩, 1) :=
  ⟨(C2_amended_render_roundtrip ⟨8080⟩ (by decide) (by decide)).1,
   (C2_amended_render_roundtrip ⟨8080⟩ (by decide) (by decide)).2 0⟩

/-- C8 witness: idempotence at a concrete TCP packet and port 8080. -/
theorem C8_witness :
    (Ubuntu.dport_tg4 (fun _ => true) ⟨8080⟩
      (Ubuntu.dport_tg4 (fun _ => true) ⟨8080⟩ tcpPacket).2).2 =
      (Ubuntu.dport_tg4 (fun _ => true) ⟨8080⟩ tcpPacket).2 :=
  (C8_rewrite_idempotent (fun _ => true) ⟨8080⟩ tcpPacket).1

/-- C9 witness: the amended statement at a concrete TCP packet. -/
theorem C9_witness :
    (Archive.dport_tg4 (fun _ => true) ⟨8080⟩ tcpPacket).1 =
      (Ubuntu.dport_tg4 (fun _ => true) ⟨8080⟩ tcpPacket).1 :=
  (C9_amended_same_verdict_swapped_port_bytes (fun _ => true) ⟨8080⟩
    tcpPacket).1
